import Mathlib

/-
Verification of the OrbitGuard scan engine against its design document.

Shallow embedding of the core components:
  * src/orbitguard/core/scan_math.py   (clamp, closest_approach_constant_velocity)
  * src/orbitguard/core/scoring.py     (risk_score, build_explanation_json)
  * src/orbitguard/worker/run.py       (hour_bucket, claim_next_job,
                                        create_alert_deduped, run_once)

Conventions: Python ints are modelled as Int/Nat; Python floats are modelled
as exact numbers (Real where square roots occur, Rat where only field
operations occur — every IEEE float value is a rational, and the design
document states the algorithms over exact arithmetic).  Database stores are
modelled as lists of rows kept in creation order; a committed UPDATE is a
map over the rows.
-/

namespace OrbitGuard

/-! ## Job state machine (worker/run.py) -/

/-- The four job states of models.py JobStatus (stored as strings in the DB). -/
inductive JobStatus where
  | pending
  | running
  | succeeded
  | failed
  deriving DecidableEq

/-- One scan_jobs row, restricted to the fields that the retry logic of
run_once reads and writes. -/
structure JobRec where
  status : JobStatus
  attempts : Nat
  max_attempts : Nat
  error : Option String
  deriving DecidableEq

/-- The body of run_once in worker/run.py acting on a store that holds a
single job, with the processing outcome abstracted: claim_next_job returns
the job only when it is PENDING (marking it RUNNING and clearing error,
as the claim commit does); then process_job either returns normally or
raises, and the except branch increments attempts, records the error text
and moves the job to PENDING or FAILED depending on attempts < max_attempts. -/
def run_once_job (j : JobRec) (outcome : Except String Unit) : JobRec :=
  if j.status = JobStatus.pending then
    -- claim_next_job: job.status = RUNNING; job.error = None; commit
    let j1 : JobRec := { j with status := JobStatus.running, error := none }
    match outcome with
    | Except.ok _ =>
        -- job.status = SUCCEEDED; commit
        { j1 with status := JobStatus.succeeded }
    | Except.error e =>
        -- job.attempts += 1; job.error = str(e);
        -- then PENDING if attempts < max_attempts else FAILED; commit
        { j1 with
            attempts := j1.attempts + 1,
            error := some e,
            status :=
              if j1.attempts + 1 < j1.max_attempts then JobStatus.pending
              else JobStatus.failed }
  else j

/-- Repeated invocations of the worker against the single-job store, one
processing outcome per invocation. -/
def run_worker (j : JobRec) (outcomes : List (Except String Unit)) : JobRec :=
  outcomes.foldl run_once_job j

/-! ## The claimer (claim_next_job in worker/run.py) and its two DB steps -/

/-- One scan_jobs row as seen by claim_next_job: its id and the fields the
claim touches.  A store is a list of such rows in created_at order. -/
structure StoreJob where
  id : Nat
  status : JobStatus
  error : Option String
  deriving DecidableEq

/-- The SELECT of claim_next_job: first row with status PENDING in
created_at order (query ... filter(status == PENDING).order_by(created_at.asc()).first()). -/
def claim_select (db : List StoreJob) : Option Nat :=
  (db.find? fun j => decide (j.status = JobStatus.pending)).map (fun j => j.id)

/-- The UPDATE+COMMIT of claim_next_job: job.status = RUNNING; job.error = None;
db.commit(). -/
def claim_update (db : List StoreJob) (i : Nat) : List StoreJob :=
  db.map fun j =>
    if j.id = i then { j with status := JobStatus.running, error := none } else j

/-- claim_next_job run by a single worker with no interleaving: SELECT, and
if a PENDING job was found, UPDATE+COMMIT; returns the claimed id (refreshed
row) and the new store. -/
def claim_next_job (db : List StoreJob) : Option Nat × List StoreJob :=
  match claim_select db with
  | none => (none, db)
  | some i => (some i, claim_update db i)

/-- The phase of one worker inside a claim_next_job call: before the SELECT,
between SELECT and UPDATE, or returned (with the value it returns). -/
inductive ClaimPhase where
  | start
  | selected (r : Option Nat)
  | done (r : Option Nat)
  deriving DecidableEq

/-- One database round-trip of a claim_next_job call.  The SELECT and the
UPDATE+COMMIT are separate store operations in the source (the session reads,
then mutates and commits), so a concurrent worker can run between them. -/
def claim_step (db : List StoreJob) (p : ClaimPhase) : ClaimPhase × List StoreJob :=
  match p with
  | ClaimPhase.start =>
      match claim_select db with
      | none => (ClaimPhase.done none, db)          -- returns None, no write
      | some i => (ClaimPhase.selected (some i), db)
  | ClaimPhase.selected none => (ClaimPhase.done none, db)
  | ClaimPhase.selected (some i) => (ClaimPhase.done (some i), claim_update db i)
  | ClaimPhase.done r => (ClaimPhase.done r, db)

/-- Two workers A and B each running claim_next_job, interleaved by a
schedule (true = A takes its next DB step, false = B does).  Returns both
phases and the final store. -/
def claim_race (db : List StoreJob) (pa pb : ClaimPhase) :
    List Bool → ClaimPhase × ClaimPhase × List StoreJob
  | [] => (pa, pb, db)
  | true :: rest =>
      let s := claim_step db pa
      claim_race s.2 s.1 pb rest
  | false :: rest =>
      let s := claim_step db pb
      claim_race s.2 pa s.1 rest

/-! ## Alert deduplication (create_alert_deduped in worker/run.py) -/

/-- hour_bucket in worker/run.py: rounds a timestamp down to the start of its
hour.  Python % on a positive modulus agrees with Int.emod. -/
def hour_bucket (ts : Int) : Int :=
  ts - ts % 3600

/-- Python int() applied to a float: truncation toward zero. -/
def py_int (q : Rat) : Int :=
  if q < 0 then ⌈q⌉ else ⌊q⌋

/-- The dedupe key computed by create_alert_deduped:
f"{object_id}:{hour_bucket(tca_ts)}:{int(threshold_km)}". -/
def dedupe_key_of (object_id : String) (tca_ts : Int) (threshold_km : Rat) : String :=
  object_id ++ ":" ++ toString (hour_bucket tca_ts) ++ ":" ++ toString (py_int threshold_km)

/-- The dedupe key as the design document words it:
object_id + ":" + hour_bucket(tca_ts) + ":" + floor(threshold_km).
Stated separately so the code key can be compared with the documented key. -/
def spec_dedupe_key (object_id : String) (tca_ts : Int) (threshold_km : Rat) : String :=
  object_id ++ ":" ++ toString (hour_bucket tca_ts) ++ ":" ++ toString (⌊threshold_km⌋)

/-- One alerts row, with the fields create_alert_deduped writes. -/
structure AlertRow where
  object_id : String
  tca_ts : Int
  min_distance_km : Rat
  risk_score : Rat
  status : String
  dedupe_key : String
  deriving DecidableEq

/-- Modelled from the spec: the Alert ORM model (and its AlertStatus enum) is
imported by worker/run.py and api/main.py but absent from
src/orbitguard/db/models.py; per design document sections 3 and 4.4 it has a
UNIQUE constraint on dedupe_key, so an INSERT whose dedupe_key is already
present raises IntegrityError, and any other insert appends the row. -/
def insert_alert (db : List AlertRow) (a : AlertRow) : Except Unit (List AlertRow) :=
  if db.any (fun b => decide (b.dedupe_key = a.dedupe_key)) then
    Except.error ()
  else
    Except.ok (db ++ [a])

/-- create_alert_deduped in worker/run.py: build the key, INSERT an OPEN
alert, and catch IntegrityError as a successful no-op (rollback). -/
def create_alert_deduped (db : List AlertRow) (object_id : String) (tca_ts : Int)
    (min_distance_km : Rat) (score : Rat) (threshold_km : Rat) : List AlertRow :=
  match insert_alert db
      { object_id := object_id, tca_ts := tca_ts,
        min_distance_km := min_distance_km, risk_score := score,
        status := "OPEN",
        dedupe_key := dedupe_key_of object_id tca_ts threshold_km } with
  | Except.ok db2 => db2
  | Except.error _ => db   -- dedupe hit: alert already exists, do nothing

/-- The arguments of one create_alert_deduped call. -/
structure UpsertCall where
  object_id : String
  tca_ts : Int
  min_distance_km : Rat
  score : Rat
  threshold_km : Rat
  deriving DecidableEq

/-- A sequence of create_alert_deduped calls against a store. -/
def run_upserts (db : List AlertRow) (calls : List UpsertCall) : List AlertRow :=
  calls.foldl
    (fun d c => create_alert_deduped d c.object_id c.tca_ts c.min_distance_km
      c.score c.threshold_km) db

/-! ## Risk scoring (risk_score in core/scoring.py) -/

/-- risk_score in core/scoring.py: 0 for a non-positive threshold, else
1 - d/threshold clamped into [0, 1] via max(0.0, min(1.0, s)). -/
def risk_score (threshold_km : Rat) (min_distance_km : Rat) : Rat :=
  if threshold_km ≤ 0 then 0
  else max 0 (min 1 (1 - min_distance_km / threshold_km))

/-! ## Geometry engine (core/scan_math.py) -/

/-- clamp in core/scan_math.py: max(lo, min(hi, x)). -/
noncomputable def clamp (x lo hi : ℝ) : ℝ :=
  max lo (min hi x)

/-- Python round() on a float, as used in int(round(t_star)): rounds to the
nearest integer, and on an exact half rounds to the even neighbour
(round-half-to-even).  Off ties it agrees with ordinary rounding. -/
noncomputable def py_round (x : ℝ) : Int :=
  if x - ⌊x⌋ = 1 / 2 then
    (if Even ⌊x⌋ then ⌊x⌋ else ⌊x⌋ + 1)
  else round x

/-- The squared Euclidean norm of r(t) = r0 + v*(t - t0), written with the
per-coordinate products exactly as scan_math.py forms them
(rix = rx + vx*dt and then rix*rix + riy*riy + riz*riz). -/
noncomputable def norm_sq_at (t0 rx ry rz vx vy vz t : ℝ) : ℝ :=
  (rx + vx * (t - t0)) * (rx + vx * (t - t0)) +
    (ry + vy * (t - t0)) * (ry + vy * (t - t0)) +
    (rz + vz * (t - t0)) * (rz + vz * (t - t0))

/-- Distance from the origin at time t: math.sqrt of the squared norm. -/
noncomputable def dist_at (t0 rx ry rz vx vy vz t : ℝ) : ℝ :=
  Real.sqrt (norm_sq_at t0 rx ry rz vx vy vz t)

/-- closest_approach_constant_velocity in core/scan_math.py.
If v2 = v·v is exactly zero, evaluate the distance at both window endpoints
and return the start endpoint when d1 <= d2, the end endpoint otherwise.
Otherwise take the unconstrained minimizer t_star = t0 - (r0·v)/(v·v), clamp
it into [t1, t2], and return (int(round(t_star)), distance at t_star). -/
noncomputable def closest_approach_constant_velocity (epoch_ts : Int)
    (x_km y_km z_km vx_km_s vy_km_s vz_km_s : ℝ)
    (start_ts end_ts : Int) : Int × ℝ :=
  if vx_km_s * vx_km_s + vy_km_s * vy_km_s + vz_km_s * vz_km_s = 0 then
    if dist_at (epoch_ts : ℝ) x_km y_km z_km vx_km_s vy_km_s vz_km_s (start_ts : ℝ) ≤
        dist_at (epoch_ts : ℝ) x_km y_km z_km vx_km_s vy_km_s vz_km_s (end_ts : ℝ) then
      (start_ts, dist_at (epoch_ts : ℝ) x_km y_km z_km vx_km_s vy_km_s vz_km_s (start_ts : ℝ))
    else
      (end_ts, dist_at (epoch_ts : ℝ) x_km y_km z_km vx_km_s vy_km_s vz_km_s (end_ts : ℝ))
  else
    (py_round (clamp ((epoch_ts : ℝ) -
        (x_km * vx_km_s + y_km * vy_km_s + z_km * vz_km_s) /
          (vx_km_s * vx_km_s + vy_km_s * vy_km_s + vz_km_s * vz_km_s))
        (start_ts : ℝ) (end_ts : ℝ)),
     dist_at (epoch_ts : ℝ) x_km y_km z_km vx_km_s vy_km_s vz_km_s
       (clamp ((epoch_ts : ℝ) -
          (x_km * vx_km_s + y_km * vy_km_s + z_km * vz_km_s) /
            (vx_km_s * vx_km_s + vy_km_s * vy_km_s + vz_km_s * vz_km_s))
          (start_ts : ℝ) (end_ts : ℝ)))

/-! ## Explanation payload (build_explanation_json in core/scoring.py)

The payload built by the source is a dict whose values are strings, ints,
floats, bools and two nested two-field dicts; json.dumps is called with
separators=(",", ":") and sort_keys=True, which renders keys in sorted
order at every nesting level with no whitespace.  The payloads here never
nest deeper than two levels, so JSON values are modelled as atoms and
one-level objects of atoms.  Numbers are rendered through the canonical
string form of the exact value; like the float repr used by json.dumps it
is a deterministic, injective function of the numeric value. -/

/-- An atomic JSON value of the payload: string, int, number or bool. -/
inductive JAtom where
  | jstr (s : String)
  | jint (n : Int)
  | jnum (q : Rat)
  | jbool (b : Bool)
  deriving DecidableEq

/-- A JSON value of the payload: an atom or a flat object of atoms. -/
inductive JVal where
  | atom (a : JAtom)
  | obj (kvs : List (String × JAtom))
  deriving DecidableEq

/-- JSON string quoting (backslash and double-quote escapes). -/
def jquote (s : String) : String :=
  "\"" ++ ((s.replace "\\" "\\\\").replace "\"" "\\\"") ++ "\""

/-- Rendering of one atom, as json.dumps renders it. -/
def render_atom : JAtom → String
  | JAtom.jstr s => jquote s
  | JAtom.jint n => toString n
  | JAtom.jnum q => toString q
  | JAtom.jbool b => if b then "true" else "false"

/-- Lexicographic comparison of character sequences by code point, which is
how Python compares strings when sort_keys=True sorts the dict keys. -/
def chars_le : List Char → List Char → Bool
  | [], _ => true
  | _ :: _, [] => false
  | a :: as, b :: bs =>
      if a.toNat < b.toNat then true
      else if b.toNat < a.toNat then false
      else chars_le as bs

/-- Code-point order on strings. -/
def str_le (a b : String) : Bool := chars_le a.data b.data

/-- Key order used by sort_keys=True inside a nested object. -/
def key_le (p q : String × JAtom) : Prop := str_le p.1 q.1 = true

instance : DecidableRel key_le := fun p q => inferInstanceAs (Decidable (str_le p.1 q.1 = true))

/-- Same key order at the outer level. -/
def vkey_le (p q : String × JVal) : Prop := str_le p.1 q.1 = true

instance : DecidableRel vkey_le := fun p q => inferInstanceAs (Decidable (str_le p.1 q.1 = true))

/-- Rendering of one value; a nested object is rendered with its keys
sorted (sort_keys=True applies recursively) and "," / ":" separators. -/
def render_val : JVal → String
  | JVal.atom a => render_atom a
  | JVal.obj kvs =>
      "\x7b" ++
        String.intercalate ","
          ((kvs.insertionSort key_le).map fun p => jquote p.1 ++ ":" ++ render_atom p.2) ++
      "\x7d"

/-- json.dumps(payload, separators=(",", ":"), sort_keys=True) for a
top-level object. -/
def json_dumps_sorted (kvs : List (String × JVal)) : String :=
  "\x7b" ++
    String.intercalate ","
      ((kvs.insertionSort vkey_le).map fun p => jquote p.1 ++ ":" ++ render_val p.2) ++
  "\x7d"

/-- The payload dict literal of build_explanation_json, in source order:
object_id, window, epoch_ts, closest_approach, threshold_km, risk_score,
why_flagged (= min_distance_km <= threshold_km). -/
def build_explanation_payload (object_id : String) (epoch_ts start_ts end_ts : Int)
    (threshold_km : Rat) (tca_ts : Int) (min_distance_km score : Rat) :
    List (String × JVal) :=
  [("object_id", JVal.atom (JAtom.jstr object_id)),
   ("window", JVal.obj [("start_ts", JAtom.jint start_ts), ("end_ts", JAtom.jint end_ts)]),
   ("epoch_ts", JVal.atom (JAtom.jint epoch_ts)),
   ("closest_approach",
      JVal.obj [("tca_ts", JAtom.jint tca_ts), ("min_distance_km", JAtom.jnum min_distance_km)]),
   ("threshold_km", JVal.atom (JAtom.jnum threshold_km)),
   ("risk_score", JVal.atom (JAtom.jnum score)),
   ("why_flagged", JVal.atom (JAtom.jbool (decide (min_distance_km ≤ threshold_km))))]

/-- build_explanation_json in core/scoring.py: the payload serialized by
json.dumps with separators (",", ":") and sort_keys=True. -/
def build_explanation_json (object_id : String) (epoch_ts start_ts end_ts : Int)
    (threshold_km : Rat) (tca_ts : Int) (min_distance_km score : Rat) : String :=
  json_dumps_sorted
    (build_explanation_payload object_id epoch_ts start_ts end_ts threshold_km
      tca_ts min_distance_km score)

/-- Whether a payload is flat: every field maps to an atomic value. -/
def is_flat (kvs : List (String × JVal)) : Bool :=
  kvs.all fun p =>
    match p.2 with
    | JVal.atom _ => true
    | JVal.obj _ => false

/-! ## Theorems -/

/-- C1: the claim states that ClaimNext marks the selected job RUNNING as a
single atomic operation, so that two concurrent ClaimNext calls against a
store holding exactly one PENDING job never both return that job.  The code
performs a plain SELECT followed by a separate UPDATE+COMMIT, so under the
interleaving A-SELECT, B-SELECT, A-COMMIT, B-COMMIT both workers return job 1.
The second conjunct checks the benign part of the claim: with no PENDING job,
claim_next_job returns none (and leaves the store unchanged) rather than
erroring. -/
theorem claim_next_job_race_both_return :
    claim_race [{ id := 1, status := JobStatus.pending, error := none }]
        ClaimPhase.start ClaimPhase.start [true, false, true, false] =
      (ClaimPhase.done (some 1), ClaimPhase.done (some 1),
        [{ id := 1, status := JobStatus.running, error := none }]) ∧
    claim_next_job [{ id := 1, status := JobStatus.running, error := none }] =
      (none, [{ id := 1, status := JobStatus.running, error := none }]) := by
  exact ⟨rfl, rfl⟩

/-- C7: on a processing error the worker increments attempts, records the
error text, and moves the job back to PENDING when the incremented attempts
count is still below max_attempts and to terminal FAILED otherwise; a job
with max_attempts = 3 failing three times ends FAILED with attempts = 3 and
the last (non-empty) error recorded; a job failing twice and then succeeding
ends SUCCEEDED with attempts = 2. -/
theorem run_once_retry_bound :
    (∀ (j : JobRec) (e : String), j.status = JobStatus.pending →
      run_once_job j (Except.error e) =
        { status := if j.attempts + 1 < j.max_attempts then JobStatus.pending
                    else JobStatus.failed,
          attempts := j.attempts + 1,
          max_attempts := j.max_attempts,
          error := some e }) ∧
    (∀ e1 e2 e3 : String, e3 ≠ "" →
      run_worker { status := JobStatus.pending, attempts := 0, max_attempts := 3, error := none }
          [Except.error e1, Except.error e2, Except.error e3] =
        { status := JobStatus.failed, attempts := 3, max_attempts := 3, error := some e3 } ∧
      ∃ msg, msg ≠ "" ∧
        (run_worker { status := JobStatus.pending, attempts := 0, max_attempts := 3, error := none }
          [Except.error e1, Except.error e2, Except.error e3]).error = some msg) ∧
    (∀ e1 e2 : String,
      run_worker { status := JobStatus.pending, attempts := 0, max_attempts := 3, error := none }
          [Except.error e1, Except.error e2, Except.ok ()] =
        { status := JobStatus.succeeded, attempts := 2, max_attempts := 3, error := none }) := by
  refine ⟨?_, ?_, ?_⟩
  · intro j e hp
    unfold run_once_job
    rw [if_pos hp]
  · intro e1 e2 e3 h3
    exact ⟨rfl, ⟨e3, h3, rfl⟩⟩
  · intro e1 e2
    rfl

/-- Witness for C7 at concrete inputs. -/
theorem run_once_retry_bound_witness :
    run_once_job { status := JobStatus.pending, attempts := 0, max_attempts := 3, error := none }
        (Except.error "boom") =
      { status := if 0 + 1 < 3 then JobStatus.pending else JobStatus.failed,
        attempts := 0 + 1, max_attempts := 3, error := some "boom" } ∧
    run_worker { status := JobStatus.pending, attempts := 0, max_attempts := 3, error := none }
        [Except.error "a", Except.error "b", Except.error "c"] =
      { status := JobStatus.failed, attempts := 3, max_attempts := 3, error := some "c" } ∧
    run_worker { status := JobStatus.pending, attempts := 0, max_attempts := 3, error := none }
        [Except.error "a", Except.error "b", Except.ok ()] =
      { status := JobStatus.succeeded, attempts := 2, max_attempts := 3, error := none } :=
  ⟨run_once_retry_bound.1 _ "boom" rfl,
   (run_once_retry_bound.2.1 "a" "b" "c" (by decide)).1,
   run_once_retry_bound.2.2 "a" "b"⟩

/-- C6: for a positive threshold the score is clamp(1 - d/threshold, 0, 1)
computed as max 0 (min 1 _); for a non-positive threshold it is 0; it is
non-increasing in the distance, 1 at distance 0, 0 at the threshold, and 0
beyond the threshold. -/
theorem risk_score_spec (threshold_km min_distance_km : Rat) :
    (0 < threshold_km →
      risk_score threshold_km min_distance_km =
        max 0 (min 1 (1 - min_distance_km / threshold_km))) ∧
    (threshold_km ≤ 0 → risk_score threshold_km min_distance_km = 0) ∧
    (∀ d2 : Rat, min_distance_km ≤ d2 →
      risk_score threshold_km d2 ≤ risk_score threshold_km min_distance_km) ∧
    (0 < threshold_km → risk_score threshold_km 0 = 1) ∧
    risk_score threshold_km threshold_km = 0 ∧
    (threshold_km ≤ min_distance_km → risk_score threshold_km min_distance_km = 0) := by
  refine ⟨?_, ?_, ?_, ?_, ?_, ?_⟩
  · intro h
    unfold risk_score
    rw [if_neg (not_le.mpr h)]
  · intro h
    unfold risk_score
    rw [if_pos h]
  · intro d2 hd
    unfold risk_score
    split_ifs with h
    · exact le_refl 0
    · push_neg at h
      have hdiv : min_distance_km / threshold_km ≤ d2 / threshold_km :=
        (div_le_div_iff_of_pos_right h).mpr hd
      exact max_le_max (le_refl 0) (min_le_min (le_refl 1) (by linarith))
  · intro h
    unfold risk_score
    rw [if_neg (not_le.mpr h)]
    norm_num
  · unfold risk_score
    split_ifs with h
    · rfl
    · push_neg at h
      rw [div_self (ne_of_gt h)]
      norm_num
  · intro h
    unfold risk_score
    split_ifs with h0
    · rfl
    · push_neg at h0
      have h1 : (1 : Rat) ≤ min_distance_km / threshold_km :=
        (le_div_iff₀ h0).mpr (by linarith)
      have h2 : 1 - min_distance_km / threshold_km ≤ 0 := by linarith
      rw [min_eq_right (by linarith), max_eq_left h2]

/-- Witness for C6 at concrete inputs. -/
theorem risk_score_spec_witness :
    risk_score 50 5 = max 0 (min 1 (1 - 5 / 50)) ∧
    risk_score (-3) 5 = 0 ∧
    risk_score 50 60 ≤ risk_score 50 5 ∧
    risk_score 50 0 = 1 ∧
    risk_score 50 50 = 0 ∧
    risk_score 50 75 = 0 :=
  ⟨(risk_score_spec 50 5).1 (by norm_num),
   (risk_score_spec (-3) 5).2.1 (by norm_num),
   (risk_score_spec 50 5).2.2.1 60 (by norm_num),
   (risk_score_spec 50 5).2.2.2.1 (by norm_num),
   (risk_score_spec 50 50).2.2.2.2.1,
   (risk_score_spec 50 75).2.2.2.2.2 (by norm_num)⟩

/-- C8: build_explanation_json is deterministic: two calls whose eight
inputs are equal produce equal output strings, hence byte-identical
serialized payloads (String.data is the character sequence). -/
theorem build_explanation_json_deterministic
    (o1 o2 : String) (e1 e2 s1 s2 n1 n2 : Int) (th1 th2 : Rat) (t1 t2 : Int)
    (d1 d2 sc1 sc2 : Rat)
    (ho : o1 = o2) (he : e1 = e2) (hs : s1 = s2) (hn : n1 = n2) (hth : th1 = th2)
    (ht : t1 = t2) (hd : d1 = d2) (hsc : sc1 = sc2) :
    build_explanation_json o1 e1 s1 n1 th1 t1 d1 sc1 =
      build_explanation_json o2 e2 s2 n2 th2 t2 d2 sc2 ∧
    (build_explanation_json o1 e1 s1 n1 th1 t1 d1 sc1).data =
      (build_explanation_json o2 e2 s2 n2 th2 t2 d2 sc2).data := by
  subst ho he hs hn hth ht hd hsc
  exact ⟨rfl, rfl⟩

/-- Witness for C8 at concrete inputs. -/
theorem build_explanation_json_deterministic_witness :
    build_explanation_json "2010 AB" 0 0 200 50 100 0 1 =
      build_explanation_json "2010 AB" 0 0 200 50 100 0 1 ∧
    (build_explanation_json "2010 AB" 0 0 200 50 100 0 1).data =
      (build_explanation_json "2010 AB" 0 0 200 50 100 0 1).data :=
  build_explanation_json_deterministic "2010 AB" "2010 AB" 0 0 0 0 200 200 50 50
    100 100 0 0 1 1 rfl rfl rfl rfl rfl rfl rfl rfl

/-- C9 counterexample: the claim calls the payload flat, but the payload maps
the key "window" (and "closest_approach") to a nested object, so it is not
flat at this concrete input. -/
theorem build_explanation_payload_not_flat :
    is_flat (build_explanation_payload "A" 0 0 10 50 100 5 1) = false := by
  rfl

/-- C9 (amended: the record is field-sorted with the window and the
closest-approach pair as nested two-field sub-records, not flat): the
serializer emits the seven fields in sorted key order, the payload carries
the object id, window, epoch, closest-approach pair, threshold and score
verbatim, and why_flagged is exactly the flag condition
min_distance_km <= threshold_km. -/
theorem build_explanation_payload_fields (o : String) (ep s n : Int) (th : Rat)
    (t : Int) (d sc : Rat) :
    ((build_explanation_payload o ep s n th t d sc).insertionSort vkey_le).map
        (fun p => p.1) =
      ["closest_approach", "epoch_ts", "object_id", "risk_score", "threshold_km",
       "why_flagged", "window"] ∧
    (build_explanation_payload o ep s n th t d sc).lookup "object_id" =
      some (JVal.atom (JAtom.jstr o)) ∧
    (build_explanation_payload o ep s n th t d sc).lookup "window" =
      some (JVal.obj [("start_ts", JAtom.jint s), ("end_ts", JAtom.jint n)]) ∧
    (build_explanation_payload o ep s n th t d sc).lookup "epoch_ts" =
      some (JVal.atom (JAtom.jint ep)) ∧
    (build_explanation_payload o ep s n th t d sc).lookup "closest_approach" =
      some (JVal.obj [("tca_ts", JAtom.jint t), ("min_distance_km", JAtom.jnum d)]) ∧
    (build_explanation_payload o ep s n th t d sc).lookup "threshold_km" =
      some (JVal.atom (JAtom.jnum th)) ∧
    (build_explanation_payload o ep s n th t d sc).lookup "risk_score" =
      some (JVal.atom (JAtom.jnum sc)) ∧
    ((build_explanation_payload o ep s n th t d sc).lookup "why_flagged" =
        some (JVal.atom (JAtom.jbool true)) ↔ d ≤ th) ∧
    build_explanation_json o ep s n th t d sc =
      json_dumps_sorted (build_explanation_payload o ep s n th t d sc) := by
  refine ⟨rfl, rfl, rfl, rfl, rfl, rfl, rfl, ?_, rfl⟩
  have hw : (build_explanation_payload o ep s n th t d sc).lookup "why_flagged" =
      some (JVal.atom (JAtom.jbool (decide (d ≤ th)))) := rfl
  rw [hw]
  simp

/-! ### Geometry lemmas -/

theorem le_clamp (x a b : ℝ) (hab : a ≤ b) : a ≤ clamp x a b :=
  le_max_left _ _

theorem clamp_le (x a b : ℝ) (hab : a ≤ b) : clamp x a b ≤ b :=
  max_le hab (min_le_left _ _)

/-- Clamping x into [a, b] yields the point of the interval nearest to x:
its squared distance to x is at most that of either endpoint. -/
theorem clamp_sq_le (x a b : ℝ) (hab : a ≤ b) :
    (clamp x a b - x) ^ 2 ≤ (a - x) ^ 2 ∧ (clamp x a b - x) ^ 2 ≤ (b - x) ^ 2 := by
  unfold clamp
  rcases le_total x a with h1 | h1
  · rw [min_eq_right (h1.trans hab), max_eq_left h1]
    exact ⟨le_refl _, by nlinarith⟩
  · rcases le_total x b with h2 | h2
    · rw [min_eq_right h2, max_eq_right h1]
      constructor <;> nlinarith [sq_nonneg (a - x), sq_nonneg (b - x)]
    · rw [min_eq_left h2, max_eq_right hab]
      exact ⟨by nlinarith, le_refl _⟩

theorem norm_sq_at_nonneg (t0 rx ry rz vx vy vz t : ℝ) :
    0 ≤ norm_sq_at t0 rx ry rz vx vy vz t := by
  unfold norm_sq_at
  have h1 := mul_self_nonneg (rx + vx * (t - t0))
  have h2 := mul_self_nonneg (ry + vy * (t - t0))
  have h3 := mul_self_nonneg (rz + vz * (t - t0))
  linarith

/-- The squared norm of r(t) is the quadratic v2*(t - t_star)^2 plus its
value at the unconstrained minimizer t_star = t0 - (r0·v)/(v·v). -/
theorem norm_sq_at_decomp (t0 rx ry rz vx vy vz t : ℝ)
    (hv : vx * vx + vy * vy + vz * vz ≠ 0) :
    norm_sq_at t0 rx ry rz vx vy vz t =
      (vx * vx + vy * vy + vz * vz) *
          (t - (t0 - (rx * vx + ry * vy + rz * vz) / (vx * vx + vy * vy + vz * vz))) ^ 2 +
        norm_sq_at t0 rx ry rz vx vy vz
          (t0 - (rx * vx + ry * vy + rz * vz) / (vx * vx + vy * vy + vz * vz)) := by
  unfold norm_sq_at
  field_simp
  ring

theorem v2_pos (vx vy vz : ℝ) (hv : vx * vx + vy * vy + vz * vz ≠ 0) :
    0 < vx * vx + vy * vy + vz * vz :=
  lt_of_le_of_ne
    (by nlinarith [mul_self_nonneg vx, mul_self_nonneg vy, mul_self_nonneg vz])
    (Ne.symm hv)

/-- Comparison of squared norms through the quadratic decomposition. -/
theorem norm_sq_at_mono (t0 rx ry rz vx vy vz u w : ℝ)
    (hv : vx * vx + vy * vy + vz * vz ≠ 0)
    (h : (u - (t0 - (rx * vx + ry * vy + rz * vz) / (vx * vx + vy * vy + vz * vz))) ^ 2 ≤
         (w - (t0 - (rx * vx + ry * vy + rz * vz) / (vx * vx + vy * vy + vz * vz))) ^ 2) :
    norm_sq_at t0 rx ry rz vx vy vz u ≤ norm_sq_at t0 rx ry rz vx vy vz w := by
  rw [norm_sq_at_decomp t0 rx ry rz vx vy vz u hv, norm_sq_at_decomp t0 rx ry rz vx vy vz w hv]
  exact add_le_add_right
    (mul_le_mul_of_nonneg_left h (v2_pos vx vy vz hv).le) _

theorem dist_at_mono (t0 rx ry rz vx vy vz u w : ℝ)
    (h : norm_sq_at t0 rx ry rz vx vy vz u ≤ norm_sq_at t0 rx ry rz vx vy vz w) :
    dist_at t0 rx ry rz vx vy vz u ≤ dist_at t0 rx ry rz vx vy vz w :=
  Real.sqrt_le_sqrt h

/-- py_round moves x by less than one: it lands on the floor or the ceiling. -/
theorem py_round_bounds (x : ℝ) : ⌊x⌋ ≤ py_round x ∧ py_round x ≤ ⌊x⌋ + 1 := by
  unfold py_round
  split_ifs with h1 h2
  · exact ⟨le_refl _, by omega⟩
  · exact ⟨by omega, le_refl _⟩
  · rw [round_eq]
    refine ⟨Int.floor_le_floor (by linarith), ?_⟩
    have hlt : x < (⌊x⌋ : ℝ) + 1 := Int.lt_floor_add_one x
    have h2 : ⌊x + 1 / 2⌋ < ⌊x⌋ + 2 := by
      apply Int.floor_lt.mpr
      push_cast
      linarith
    omega

theorem py_round_intCast (n : Int) : py_round (n : ℝ) = n := by
  unfold py_round
  rw [Int.floor_intCast, if_neg (by norm_num), round_intCast]

/-- A real number lying between two integers rounds (Python-style) to an
integer in the same range. -/
theorem py_round_mem (s e : Int) (t : ℝ) (hs : (s : ℝ) ≤ t) (he : t ≤ (e : ℝ)) :
    s ≤ py_round t ∧ py_round t ≤ e := by
  have h1 : s ≤ ⌊t⌋ := Int.le_floor.mpr hs
  have h2 : ⌊t⌋ ≤ e := by
    have h3 : (⌊t⌋ : ℝ) ≤ (e : ℝ) := (Int.floor_le t).trans he
    exact_mod_cast h3
  have hb := py_round_bounds t
  refine ⟨le_trans h1 hb.1, ?_⟩
  by_cases hlt : ⌊t⌋ < e
  · omega
  · have hfe : ⌊t⌋ = e := le_antisymm h2 (not_lt.mp hlt)
    have hle : (e : ℝ) ≤ t := by
      rw [← hfe]
      exact Int.floor_le t
    have hte : t = (e : ℝ) := le_antisymm he hle
    rw [hte, py_round_intCast]

/-- Reduction of the geometry solver in the moving (v·v ≠ 0) case. -/
theorem closest_approach_moving_eq (epoch_ts : Int) (rx ry rz vx vy vz : ℝ)
    (s e : Int) (hv : vx * vx + vy * vy + vz * vz ≠ 0) :
    closest_approach_constant_velocity epoch_ts rx ry rz vx vy vz s e =
      (py_round (clamp ((epoch_ts : ℝ) -
          (rx * vx + ry * vy + rz * vz) / (vx * vx + vy * vy + vz * vz)) (s : ℝ) (e : ℝ)),
       dist_at (epoch_ts : ℝ) rx ry rz vx vy vz
         (clamp ((epoch_ts : ℝ) -
            (rx * vx + ry * vy + rz * vz) / (vx * vx + vy * vy + vz * vz)) (s : ℝ) (e : ℝ))) := by
  unfold closest_approach_constant_velocity
  rw [if_neg hv]

/-- C3: with nonzero velocity and a proper window, the solver returns
exactly the Python-rounded clamp of t_star = t0 - (r0·v)/(v·v) into
[start_ts, end_ts] paired with the Euclidean distance at the clamped time,
and the returned timestamp lies inside [start_ts, end_ts]. -/
theorem closest_approach_moving_case (epoch_ts : Int) (rx ry rz vx vy vz : ℝ)
    (s e : Int) (hv : vx * vx + vy * vy + vz * vz ≠ 0) (hw : s < e) :
    closest_approach_constant_velocity epoch_ts rx ry rz vx vy vz s e =
      (py_round (clamp ((epoch_ts : ℝ) -
          (rx * vx + ry * vy + rz * vz) / (vx * vx + vy * vy + vz * vz)) (s : ℝ) (e : ℝ)),
       dist_at (epoch_ts : ℝ) rx ry rz vx vy vz
         (clamp ((epoch_ts : ℝ) -
            (rx * vx + ry * vy + rz * vz) / (vx * vx + vy * vy + vz * vz)) (s : ℝ) (e : ℝ))) ∧
    s ≤ (closest_approach_constant_velocity epoch_ts rx ry rz vx vy vz s e).1 ∧
    (closest_approach_constant_velocity epoch_ts rx ry rz vx vy vz s e).1 ≤ e := by
  have heq := closest_approach_moving_eq epoch_ts rx ry rz vx vy vz s e hv
  have hse : (s : ℝ) ≤ (e : ℝ) := by exact_mod_cast hw.le
  have hmem := py_round_mem s e
    (clamp ((epoch_ts : ℝ) -
      (rx * vx + ry * vy + rz * vz) / (vx * vx + vy * vy + vz * vz)) (s : ℝ) (e : ℝ))
    (le_clamp _ _ _ hse) (clamp_le _ _ _ hse)
  refine ⟨heq, ?_, ?_⟩
  · rw [heq]
    exact hmem.1
  · rw [heq]
    exact hmem.2

/-- Witness for C3: the worked example of the design document, r0 =
(1000, 0, 0), v = (-10, 0, 0), epoch 0, window [0, 200]. -/
theorem closest_approach_moving_case_witness :
    0 ≤ (closest_approach_constant_velocity 0 1000 0 0 (-10) 0 0 0 200).1 ∧
    (closest_approach_constant_velocity 0 1000 0 0 (-10) 0 0 0 200).1 ≤ 200 :=
  ⟨(closest_approach_moving_case 0 1000 0 0 (-10) 0 0 0 200 (by norm_num) (by norm_num)).2.1,
   (closest_approach_moving_case 0 1000 0 0 (-10) 0 0 0 200 (by norm_num) (by norm_num)).2.2⟩

/-- C4: with nonzero velocity and a proper window, the returned distance is
at most the distance from the origin at either window endpoint. -/
theorem closest_approach_window_min (epoch_ts : Int) (rx ry rz vx vy vz : ℝ)
    (s e : Int) (hv : vx * vx + vy * vy + vz * vz ≠ 0) (hw : s < e) :
    (closest_approach_constant_velocity epoch_ts rx ry rz vx vy vz s e).2 ≤
      dist_at (epoch_ts : ℝ) rx ry rz vx vy vz (s : ℝ) ∧
    (closest_approach_constant_velocity epoch_ts rx ry rz vx vy vz s e).2 ≤
      dist_at (epoch_ts : ℝ) rx ry rz vx vy vz (e : ℝ) := by
  rw [closest_approach_moving_eq epoch_ts rx ry rz vx vy vz s e hv]
  have hse : (s : ℝ) ≤ (e : ℝ) := by exact_mod_cast hw.le
  have hsq := clamp_sq_le ((epoch_ts : ℝ) -
    (rx * vx + ry * vy + rz * vz) / (vx * vx + vy * vy + vz * vz)) (s : ℝ) (e : ℝ) hse
  constructor
  · exact dist_at_mono _ _ _ _ _ _ _ _ _
      (norm_sq_at_mono _ _ _ _ _ _ _ _ _ hv hsq.1)
  · exact dist_at_mono _ _ _ _ _ _ _ _ _
      (norm_sq_at_mono _ _ _ _ _ _ _ _ _ hv hsq.2)

/-- Witness for C4 at the same worked example. -/
theorem closest_approach_window_min_witness :
    (closest_approach_constant_velocity 0 1000 0 0 (-10) 0 0 0 200).2 ≤
      dist_at 0 1000 0 0 (-10) 0 0 0 ∧
    (closest_approach_constant_velocity 0 1000 0 0 (-10) 0 0 0 200).2 ≤
      dist_at 0 1000 0 0 (-10) 0 0 200 := by
  have h := closest_approach_window_min 0 1000 0 0 (-10) 0 0 0 200 (by norm_num) (by norm_num)
  constructor
  · have h1 := h.1
    norm_num at h1 ⊢
    exact h1
  · have h2 := h.2
    norm_num at h2 ⊢
    exact h2

/-- C5: with exactly zero velocity the solver returns the start endpoint and
its distance when the start distance is at most the end distance (hence on an
exact tie), the end endpoint and its distance otherwise, and the returned
distance is the minimum of the two endpoint distances. -/
theorem closest_approach_stationary (epoch_ts : Int) (rx ry rz vx vy vz : ℝ)
    (s e : Int) (hv : vx * vx + vy * vy + vz * vz = 0) :
    (dist_at (epoch_ts : ℝ) rx ry rz vx vy vz (s : ℝ) ≤
        dist_at (epoch_ts : ℝ) rx ry rz vx vy vz (e : ℝ) →
      closest_approach_constant_velocity epoch_ts rx ry rz vx vy vz s e =
        (s, dist_at (epoch_ts : ℝ) rx ry rz vx vy vz (s : ℝ))) ∧
    (dist_at (epoch_ts : ℝ) rx ry rz vx vy vz (e : ℝ) <
        dist_at (epoch_ts : ℝ) rx ry rz vx vy vz (s : ℝ) →
      closest_approach_constant_velocity epoch_ts rx ry rz vx vy vz s e =
        (e, dist_at (epoch_ts : ℝ) rx ry rz vx vy vz (e : ℝ))) ∧
    (closest_approach_constant_velocity epoch_ts rx ry rz vx vy vz s e).2 =
      min (dist_at (epoch_ts : ℝ) rx ry rz vx vy vz (s : ℝ))
        (dist_at (epoch_ts : ℝ) rx ry rz vx vy vz (e : ℝ)) ∧
    (dist_at (epoch_ts : ℝ) rx ry rz vx vy vz (s : ℝ) =
        dist_at (epoch_ts : ℝ) rx ry rz vx vy vz (e : ℝ) →
      (closest_approach_constant_velocity epoch_ts rx ry rz vx vy vz s e).1 = s) := by
  unfold closest_approach_constant_velocity
  rw [if_pos hv]
  by_cases h : dist_at (epoch_ts : ℝ) rx ry rz vx vy vz (s : ℝ) ≤
      dist_at (epoch_ts : ℝ) rx ry rz vx vy vz (e : ℝ)
  · rw [if_pos h]
    exact ⟨fun _ => rfl, fun hlt => absurd h (not_le.mpr hlt),
      (min_eq_left h).symm, fun _ => rfl⟩
  · rw [if_neg h]
    refine ⟨fun hle => absurd hle h, fun _ => rfl,
      (min_eq_right (le_of_not_le h)).symm, fun heq => absurd heq.le h⟩

/-- Witness for C5: stationary object at (3, 4, 0), window [0, 10]; both
endpoint distances are 5, so the start endpoint is returned. -/
theorem closest_approach_stationary_witness :
    closest_approach_constant_velocity 0 3 4 0 0 0 0 0 10 =
      (0, dist_at 0 3 4 0 0 0 0 0) ∧
    (closest_approach_constant_velocity 0 3 4 0 0 0 0 0 10).1 = 0 := by
  have h := closest_approach_stationary 0 3 4 0 0 0 0 0 10 (by norm_num)
  have htie : dist_at ((0 : Int) : ℝ) 3 4 0 0 0 0 ((0 : Int) : ℝ) =
      dist_at ((0 : Int) : ℝ) 3 4 0 0 0 0 ((10 : Int) : ℝ) := by
    unfold dist_at norm_sq_at
    norm_num
  constructor
  · have h1 := h.1 htie.le
    norm_num at h1 ⊢
    exact h1
  · have h2 := h.2.2.2 htie
    norm_num at h2 ⊢
    exact h2

/-- C10: the solver is total — every input produces a pair — and on a
degenerate window with end_ts < start_ts and nonzero velocity the clamp
collapses to the start endpoint, so the solver returns the start timestamp
and the distance there. -/
theorem closest_approach_total :
    (∀ (epoch_ts : Int) (rx ry rz vx vy vz : ℝ) (s e : Int),
      ∃ p : Int × ℝ, closest_approach_constant_velocity epoch_ts rx ry rz vx vy vz s e = p) ∧
    (∀ (epoch_ts : Int) (rx ry rz vx vy vz : ℝ) (s e : Int),
      vx * vx + vy * vy + vz * vz ≠ 0 → e < s →
      closest_approach_constant_velocity epoch_ts rx ry rz vx vy vz s e =
        (s, dist_at (epoch_ts : ℝ) rx ry rz vx vy vz (s : ℝ))) := by
  constructor
  · intro epoch_ts rx ry rz vx vy vz s e
    exact ⟨_, rfl⟩
  · intro epoch_ts rx ry rz vx vy vz s e hv hw
    rw [closest_approach_moving_eq epoch_ts rx ry rz vx vy vz s e hv]
    have hes : (e : ℝ) ≤ (s : ℝ) := by exact_mod_cast hw.le
    have hclamp : clamp ((epoch_ts : ℝ) -
        (rx * vx + ry * vy + rz * vz) / (vx * vx + vy * vy + vz * vz)) (s : ℝ) (e : ℝ) =
        (s : ℝ) := by
      unfold clamp
      exact max_eq_left ((min_le_left _ _).trans hes)
    rw [hclamp, py_round_intCast]

/-- Witness for C10: reversed window [10, 0] with the moving object. -/
theorem closest_approach_total_witness :
    closest_approach_constant_velocity 0 1000 0 0 (-10) 0 0 10 0 =
      (10, dist_at 0 1000 0 0 (-10) 0 0 10) := by
  have h := closest_approach_total.2 0 1000 0 0 (-10) 0 0 10 0 (by norm_num) (by norm_num)
  norm_num at h ⊢
  exact h

/-! ### Alert-dedupe lemmas -/

/-- If the key is already present, create_alert_deduped is a no-op. -/
theorem create_alert_key_exists_noop (db : List AlertRow) (oid : String) (tca : Int)
    (m sc th : Rat)
    (h : (db.any fun b => decide (b.dedupe_key = dedupe_key_of oid tca th)) = true) :
    create_alert_deduped db oid tca m sc th = db := by
  unfold create_alert_deduped insert_alert
  dsimp only
  split_ifs
  rfl

/-- After create_alert_deduped, a row with the key of the call is present. -/
theorem create_alert_key_mem (db : List AlertRow) (oid : String) (tca : Int)
    (m sc th : Rat) :
    ((create_alert_deduped db oid tca m sc th).any
      fun b => decide (b.dedupe_key = dedupe_key_of oid tca th)) = true := by
  by_cases hc : (db.any fun b => decide (b.dedupe_key = dedupe_key_of oid tca th)) = true
  · rw [create_alert_key_exists_noop db oid tca m sc th hc]
    exact hc
  · unfold create_alert_deduped insert_alert
    dsimp only
    rw [if_neg hc]
    simp [List.any_append]

/-- create_alert_deduped preserves pairwise distinctness of dedupe keys. -/
theorem create_alert_preserves_distinct (db : List AlertRow) (oid : String)
    (tca : Int) (m sc th : Rat)
    (h : db.Pairwise fun a b => a.dedupe_key ≠ b.dedupe_key) :
    (create_alert_deduped db oid tca m sc th).Pairwise
      (fun a b => a.dedupe_key ≠ b.dedupe_key) := by
  unfold create_alert_deduped insert_alert
  dsimp only
  split_ifs with hc
  · exact h
  · rw [List.pairwise_append]
    refine ⟨h, List.pairwise_singleton _ _, ?_⟩
    intro x hx y hy
    simp only [List.mem_singleton] at hy
    subst hy
    intro heq
    apply hc
    rw [List.any_eq_true]
    exact ⟨x, hx, by simp [heq]⟩

/-- run_upserts preserves pairwise distinctness of dedupe keys. -/
theorem run_upserts_preserves_distinct (calls : List UpsertCall) :
    ∀ db : List AlertRow,
      db.Pairwise (fun a b => a.dedupe_key ≠ b.dedupe_key) →
      (run_upserts db calls).Pairwise (fun a b => a.dedupe_key ≠ b.dedupe_key) := by
  induction calls with
  | nil => exact fun db h => h
  | cons c cs ih =>
      intro db h
      exact ih _ (create_alert_preserves_distinct db c.object_id c.tca_ts
        c.min_distance_km c.score c.threshold_km h)

/-- A second call with the same (object_id, tca_ts, threshold_km) is a no-op,
whatever its distance and score. -/
theorem upsert_duplicate_noop (db : List AlertRow) (c c2 : UpsertCall)
    (h1 : c.object_id = c2.object_id) (h2 : c.tca_ts = c2.tca_ts)
    (h3 : c.threshold_km = c2.threshold_km) :
    run_upserts db [c, c2] = run_upserts db [c] := by
  show create_alert_deduped (create_alert_deduped db c.object_id c.tca_ts
      c.min_distance_km c.score c.threshold_km) c2.object_id c2.tca_ts
      c2.min_distance_km c2.score c2.threshold_km =
    create_alert_deduped db c.object_id c.tca_ts c.min_distance_km c.score c.threshold_km
  apply create_alert_key_exists_noop
  rw [← h1, ← h2, ← h3]
  exact create_alert_key_mem db c.object_id c.tca_ts c.min_distance_km c.score c.threshold_km

/-- C2: over any sequence of calls whose thresholds are non-negative (jobs
carry positive thresholds, and only distances at most the threshold reach
the deduper, so distances are non-negative and thresholds at least them):
the store never holds two rows with the same dedupe key; the key computed by
the code equals the documented key object_id:hour_bucket(tca):floor(threshold)
(int() truncation and floor agree on non-negative thresholds); a repeated
call with identical (object_id, tca_ts, threshold_km) and arbitrary other
fields is a no-op, never an error (the function is total and returns the
unchanged store); and two such calls from an empty store leave exactly one
row with that key. -/
theorem upsert_alert_dedupe (calls : List UpsertCall)
    (hth : ∀ c ∈ calls, 0 ≤ c.threshold_km) :
    (run_upserts [] calls).Pairwise (fun a b => a.dedupe_key ≠ b.dedupe_key) ∧
    (∀ c ∈ calls, dedupe_key_of c.object_id c.tca_ts c.threshold_km =
      spec_dedupe_key c.object_id c.tca_ts c.threshold_km) ∧
    (∀ (db : List AlertRow) (c c2 : UpsertCall),
      c.object_id = c2.object_id → c.tca_ts = c2.tca_ts →
      c.threshold_km = c2.threshold_km →
      run_upserts db [c, c2] = run_upserts db [c]) ∧
    (∀ c c2 : UpsertCall,
      c.object_id = c2.object_id → c.tca_ts = c2.tca_ts →
      c.threshold_km = c2.threshold_km →
      ((run_upserts [] [c, c2]).filter
        (fun a => decide (a.dedupe_key =
          dedupe_key_of c.object_id c.tca_ts c.threshold_km))).length = 1) := by
  refine ⟨?_, ?_, ?_, ?_⟩
  · exact run_upserts_preserves_distinct calls [] List.Pairwise.nil
  · intro c hc
    have hpy : py_int c.threshold_km = ⌊c.threshold_km⌋ := by
      unfold py_int
      rw [if_neg (not_lt.mpr (hth c hc))]
    simp only [dedupe_key_of, spec_dedupe_key, hpy]
  · exact upsert_duplicate_noop
  · intro c c2 h1 h2 h3
    rw [upsert_duplicate_noop [] c c2 h1 h2 h3]
    have hrun : run_upserts [] [c] =
        [{ object_id := c.object_id, tca_ts := c.tca_ts,
           min_distance_km := c.min_distance_km, risk_score := c.score,
           status := "OPEN",
           dedupe_key := dedupe_key_of c.object_id c.tca_ts c.threshold_km }] := rfl
    rw [hrun]
    simp [List.filter]

/-- Witness for C2: the same object, hour and threshold upserted twice with
different distance and score. -/
theorem upsert_alert_dedupe_witness :
    (run_upserts []
        [{ object_id := "A", tca_ts := 7200, min_distance_km := 5, score := 1,
           threshold_km := 10 },
         { object_id := "A", tca_ts := 7200, min_distance_km := 3, score := 1 / 2,
           threshold_km := 10 }]).Pairwise
      (fun a b => a.dedupe_key ≠ b.dedupe_key) ∧
    dedupe_key_of "A" 7200 10 = spec_dedupe_key "A" 7200 10 ∧
    run_upserts []
        [{ object_id := "A", tca_ts := 7200, min_distance_km := 5, score := 1,
           threshold_km := 10 },
         { object_id := "A", tca_ts := 7200, min_distance_km := 3, score := 1 / 2,
           threshold_km := 10 }] =
      run_upserts []
        [{ object_id := "A", tca_ts := 7200, min_distance_km := 5, score := 1,
           threshold_km := 10 }] ∧
    ((run_upserts []
        [{ object_id := "A", tca_ts := 7200, min_distance_km := 5, score := 1,
           threshold_km := 10 },
         { object_id := "A", tca_ts := 7200, min_distance_km := 3, score := 1 / 2,
           threshold_km := 10 }]).filter
      (fun a => decide (a.dedupe_key = dedupe_key_of "A" 7200 10))).length = 1 := by
  have h := upsert_alert_dedupe
    [{ object_id := "A", tca_ts := 7200, min_distance_km := 5, score := 1,
       threshold_km := 10 },
     { object_id := "A", tca_ts := 7200, min_distance_km := 3, score := 1 / 2,
       threshold_km := 10 }]
    (by decide)
  refine ⟨h.1, ?_, ?_, ?_⟩
  · exact h.2.1
      { object_id := "A", tca_ts := 7200, min_distance_km := 5, score := 1,
        threshold_km := 10 } (by simp)
  · exact h.2.2.1 []
      { object_id := "A", tca_ts := 7200, min_distance_km := 5, score := 1,
        threshold_km := 10 }
      { object_id := "A", tca_ts := 7200, min_distance_km := 3, score := 1 / 2,
        threshold_km := 10 } rfl rfl rfl
  · exact h.2.2.2
      { object_id := "A", tca_ts := 7200, min_distance_km := 5, score := 1,
        threshold_km := 10 }
      { object_id := "A", tca_ts := 7200, min_distance_km := 3, score := 1 / 2,
        threshold_km := 10 } rfl rfl rfl

end OrbitGuard
